import Mathlib

/-!
Verification of the bounce-demo physics core (videogame/circle.py,
videogame/mathutil.py, videogame/scene.py) against its specification.

Shallow embedding conventions:
* pygame float arithmetic is idealized over ℝ;
* a pygame Rect stores integer coordinates, and assigning a float to a Rect
  field truncates it toward zero (C cast), so a sprite's stored center is a
  pair of integers and CircleSprite.position reads those integers back;
* operations that can raise a Python exception return Except Err;
* ambient randomness (randint draws in make_circles) is modelled by an
  explicit stream of draws, and the unbounded while loop by a fuel counter:
  exhausting the fuel yields the distinguished error Err.stillRunning,
  meaning the loop has not exited after that many iterations.
-/

noncomputable section

open scoped Classical

/-- pygame.math.Vector2, idealized over ℝ. -/
structure Vec2 where
  x : ℝ
  y : ℝ

namespace Vec2

instance : Zero Vec2 := ⟨⟨0, 0⟩⟩

instance : Add Vec2 := ⟨fun a b => ⟨a.x + b.x, a.y + b.y⟩⟩

instance : Sub Vec2 := ⟨fun a b => ⟨a.x - b.x, a.y - b.y⟩⟩

instance : Neg Vec2 := ⟨fun a => ⟨-a.x, -a.y⟩⟩

instance : SMul ℝ Vec2 := ⟨fun r a => ⟨r * a.x, r * a.y⟩⟩

@[simp] theorem add_def (a b : Vec2) : a + b = ⟨a.x + b.x, a.y + b.y⟩ := rfl

@[simp] theorem sub_def (a b : Vec2) : a - b = ⟨a.x - b.x, a.y - b.y⟩ := rfl

@[simp] theorem neg_def (a : Vec2) : -a = ⟨-a.x, -a.y⟩ := rfl

@[simp] theorem smul_def (r : ℝ) (a : Vec2) : r • a = ⟨r * a.x, r * a.y⟩ := rfl

@[simp] theorem zero_def : (0 : Vec2) = ⟨0, 0⟩ := rfl

@[simp] theorem mk_inj (a b c d : ℝ) :
    (Vec2.mk a b = Vec2.mk c d) ↔ a = c ∧ b = d := by
  constructor
  · intro h
    exact ⟨congrArg Vec2.x h, congrArg Vec2.y h⟩
  · rintro ⟨h1, h2⟩
    rw [h1, h2]

/-- Vector2.dot. -/
def dot (a b : Vec2) : ℝ := a.x * b.x + a.y * b.y

/-- Vector2.length_squared. -/
def length_squared (a : Vec2) : ℝ := a.x * a.x + a.y * a.y

/-- Vector2.length. -/
def length (a : Vec2) : ℝ := Real.sqrt (length_squared a)

end Vec2

/-- Python exceptions that the modelled code can raise, plus the marker for a
while loop that is still running when the modelling fuel runs out. -/
inductive Err where
  | valueError
  | assertionError
  | nameError
  | stillRunning
deriving DecidableEq

namespace Vec2

/-- Vector2.normalize: raises ValueError on a vector of length zero, else
divides the components by the length. -/
def normalize (a : Vec2) : Except Err Vec2 :=
  if length a = 0 then .error .valueError else .ok ((length a)⁻¹ • a)

/-- Vector2.reflect about a normal n: v - 2*(v·n)/(n·n) * n.  update_scene
only calls it with the four unit wall normals, so the zero-normal error
branch of pygame is unreachable and not modelled. -/
def reflect (v n : Vec2) : Vec2 := v - ((2 * dot v n / dot n n) • n)

end Vec2

/-- mathutil.midpoint (namespaced: Mathlib already has a midpoint). -/
def mathutil.midpoint (a b : Vec2) : Vec2 := ⟨(a.x + b.x) / 2, (a.y + b.y) / 2⟩

/-- Assigning a float to a pygame Rect coordinate truncates it toward zero
(C cast to int). -/
def truncZ (r : ℝ) : ℤ := if 0 ≤ r then ⌊r⌋ else ⌈r⌉

/-- circle.CircleSprite: the physics-relevant state.  The sprite's center
lives in self.rect.center (integer pixels); _direction and _speed carry the
velocity; _radius is fixed.  Image/color/name state is presentation-only. -/
structure CircleSprite where
  rectCenter : ℤ × ℤ
  direction : Vec2
  speed : ℝ
  radius : ℝ

instance : Inhabited CircleSprite := ⟨⟨(0, 0), ⟨0, 0⟩, 0, 0⟩⟩

namespace CircleSprite

/-- CircleSprite.min_speed. -/
def min_speed : ℝ := 0.1

/-- CircleSprite.max_speed. -/
def max_speed : ℝ := 0.7

/-- CircleSprite.mass: always 1.0. -/
def mass (_ : CircleSprite) : ℝ := 1

/-- The position property getter: Vector2(self.rect.center). -/
def position (c : CircleSprite) : Vec2 :=
  ⟨(c.rectCenter.1 : ℝ), (c.rectCenter.2 : ℝ)⟩

/-- The position property setter: self.rect.center = (p.x, p.y), truncating
each float coordinate toward zero. -/
def setPosition (c : CircleSprite) (p : Vec2) : CircleSprite :=
  { c with rectCenter := (truncZ p.x, truncZ p.y) }

/-- The velocity property getter: self._direction * self._speed. -/
def velocity (c : CircleSprite) : Vec2 := c.speed • c.direction

/-- The velocity property setter: _speed = v.length(); _direction =
v.normalize(), which raises ValueError when v has length zero. -/
def setVelocity (c : CircleSprite) (v : Vec2) : Except Err CircleSprite :=
  if Vec2.length v = 0 then .error .valueError
  else .ok { c with speed := Vec2.length v, direction := (Vec2.length v)⁻¹ • v }

/-- CircleSprite.contains: distance from point to center at most
2*(radius + buffer). -/
def contains (c : CircleSprite) (point : Vec2) (buffer : ℝ) : Prop :=
  Vec2.length (point - c.position) ≤ 2 * (c.radius + buffer)

end CircleSprite

/-- mathutil.elastic_bounce: the new velocity of a, colliding with b;
asserts that the two centers do not coincide. -/
def elastic_bounce (a b : CircleSprite) : Except Err Vec2 :=
  let mass := (2 * b.mass) / (a.mass + b.mass)
  let ab_velocity := a.velocity - b.velocity
  let ab_center := a.position - b.position
  let ab_v_dot_ab_c := Vec2.dot ab_velocity ab_center
  let dist := Vec2.length_squared ab_center
  if dist = 0 then .error .assertionError
  else .ok (a.velocity - ((mass * (ab_v_dot_ab_c / dist)) • ab_center))

/-- pygame.sprite.collide_circle on two CircleSprites: squared distance of the
rect centers at most the squared sum of the radii. -/
def collide_circle (a b : CircleSprite) : Prop :=
  Vec2.length_squared (a.position - b.position) ≤ (a.radius + b.radius) ^ 2

/-- First loop of BounceScene.update_scene (scene.py:196-206): tentative move
by velocity * delta_time, clamp each axis into [radius, bound - radius],
store through the position setter (integer truncation). -/
def moveAndClamp (width height dt : ℝ) (c : CircleSprite) : CircleSprite :=
  let p := c.position + dt • c.velocity
  let px := min (max p.x (0 + c.radius)) (width - c.radius)
  let py := min (max p.y (0 + c.radius)) (height - c.radius)
  c.setPosition ⟨px, py⟩

/-- Second loop of BounceScene.update_scene (scene.py:208-220): the four edge
tests run in order, each overwriting the normal, and the direction is
reflected about the last normal written, if any. -/
def bounceWalls (width height : ℝ) (c : CircleSprite) : CircleSprite :=
  let px := c.position.x
  let py := c.position.y
  let n0 : Option Vec2 := none
  let n1 := if px - c.radius ≤ 0 then some ⟨1, 0⟩ else n0
  let n2 := if width ≤ px + c.radius then some ⟨-1, 0⟩ else n1
  let n3 := if py - c.radius ≤ 0 then some ⟨0, 1⟩ else n2
  let n4 := if height ≤ py + c.radius then some ⟨0, -1⟩ else n3
  match n4 with
  | some n => { c with direction := Vec2.reflect c.direction n }
  | none => c

/-- Body of the collision branch (scene.py:229-248): re-seat both circles
about the midpoint of their pre-resolution centers, then update both
velocities.  The second position uses the first circle's already stored (and
so truncated) new position, and the second elastic_bounce call reads the
first circle's already updated velocity and negates the result. -/
def resolvePair (c oc : CircleSprite) : Except Err (CircleSprite × CircleSprite) := do
  let mid_pt := mathutil.midpoint c.position oc.position
  let n1 ← Vec2.normalize (c.position - oc.position)
  let c1 := c.setPosition (mid_pt + c.radius • n1)
  let n2 ← Vec2.normalize (oc.position - c1.position)
  let oc1 := oc.setPosition (mid_pt + oc.radius • n2)
  let v1 ← elastic_bounce c1 oc1
  let c2 ← c1.setVelocity v1
  let v2 ← elastic_bounce oc1 c2
  let oc2 ← oc1.setVelocity (-v2)
  return (c2, oc2)

/-- The unordered pairs (i, j), i < j, in the traversal order of the third
loop of update_scene (ascending i, then ascending j). -/
def pairIndices (n : ℕ) : List (ℕ × ℕ) :=
  (List.range n).flatMap fun i => ((List.range n).filter fun j => i < j).map fun j => (i, j)

/-- Third loop of update_scene (scene.py:222-248) over a list of pairs still
to visit: a colliding pair is resolved in place (the circles are mutated
objects shared with the list) and one event (i, j) is recorded per detected
collision (the source plays one sound there). -/
def pairLoop (cs : List CircleSprite) (events : List (ℕ × ℕ)) :
    List (ℕ × ℕ) → Except Err (List CircleSprite × List (ℕ × ℕ))
  | [] => .ok (cs, events)
  | (i, j) :: rest =>
    let c := cs.getD i default
    let oc := cs.getD j default
    if collide_circle c oc then
      match resolvePair c oc with
      | .error e => .error e
      | .ok (c2, oc2) => pairLoop ((cs.set i c2).set j oc2) (events ++ [(i, j)]) rest
    else
      pairLoop cs events rest

/-- scene.py:250-257: the asserts after the loops read the leaked loop
variable named circle: the body at index n-2 when n ≥ 2 (the last element of
circles[:-1]), the single body when n = 1, and an unbound name (NameError)
when n = 0. -/
def lastLoopVar (cs : List CircleSprite) : Except Err CircleSprite :=
  if cs.length = 0 then .error .nameError
  else if cs.length = 1 then .ok (cs.getD 0 default)
  else .ok (cs.getD (cs.length - 2) default)

/-- BounceScene.update_scene (scene.py:189-257): move-and-clamp every circle,
wall-bounce every circle, resolve every pair in order, then run the two
trailing asserts on the leaked loop variable. -/
def update_scene (width height dt : ℝ) (cs : List CircleSprite) :
    Except Err (List CircleSprite × List (ℕ × ℕ)) := do
  let cs1 := cs.map (moveAndClamp width height dt)
  let cs2 := cs1.map (bounceWalls width height)
  let r ← pairLoop cs2 [] (pairIndices cs2.length)
  let t ← lastLoopVar r.1
  if t.radius ≤ t.position.x ∧ t.position.x ≤ width - t.radius then
    if t.radius ≤ t.position.y ∧ t.position.y ≤ height - t.radius then
      return r
    else .error .assertionError
  else .error .assertionError

/-- Rejection loop of make_circles (scene.py:138-146) for one circle: the
candidate σ k; while it collides with a placed circle (CircleSprite.contains
with buffer_between = 32 // 10 = 3) and the placed list is nonempty, redraw.
fuel bounds how many redraws are unfolded; Err.stillRunning means the while
loop has not exited after fuel redraws (the source has no bound at all). -/
def placeOne (placed : List CircleSprite) (σ : ℕ → ℤ × ℤ) :
    ℕ → ℕ → Except Err ((ℤ × ℤ) × ℕ)
  | fuel, k =>
    let cand := σ k
    if (∃ c ∈ placed, c.contains ⟨(cand.1 : ℝ), (cand.2 : ℝ)⟩ 3) ∧ placed ≠ [] then
      match fuel with
      | 0 => .error .stillRunning
      | fuel2 + 1 => placeOne placed σ fuel2 (k + 1)
    else
      .ok (cand, k + 1)

/-- BounceScene.make_circles (scene.py:132-160), the placement part: positions
are randint draws from the stream σ; each accepted circle is built with
radius 32 and with direction and speed taken from the stream ds (modelling
random_direction and uniform, which do not influence placement), after the
source's assert 0 < x < width, 0 < y < height.  The remaining count, the
stream cursor and the accumulator are the last three arguments. -/
def make_circles (width height : ℤ) (σ : ℕ → ℤ × ℤ) (ds : ℕ → Vec2 × ℝ)
    (fuel : ℕ) : ℕ → ℕ → List CircleSprite → Except Err (List CircleSprite)
  | 0, _, acc => .ok acc
  | n + 1, k, acc =>
    match placeOne acc σ fuel k with
    | .error e => .error e
    | .ok (pos, k2) =>
      if 0 < pos.1 ∧ pos.1 < width ∧ 0 < pos.2 ∧ pos.2 < height then
        make_circles width height σ ds fuel n k2
          (acc ++ [{ rectCenter := pos, direction := (ds acc.length).1,
                     speed := (ds acc.length).2, radius := 32 }])
      else .error .assertionError

/-- The spec's elastic-collision formula (spec §4.4 step 3) for a body with
velocity va and mass ma against vb, mb, with an explicit choice of the two
positions entering the direction term. -/
def specElasticFormula (va vb : Vec2) (ma mb : ℝ) (pa pb : Vec2) : Vec2 :=
  va - (((2 * mb) / (ma + mb)) *
    (Vec2.dot (va - vb) (pa - pb) / Vec2.length_squared (pa - pb))) • (pa - pb)

/-- The spec's reading of the boundary step (spec §4.3): the wall normals of
the edges whose penetration tests pass, in the order the tests are given. -/
def matchedNormals (width height : ℝ) (c : CircleSprite) : List Vec2 :=
  (if c.position.x - c.radius ≤ 0 then [(⟨1, 0⟩ : Vec2)] else []) ++
  (if width ≤ c.position.x + c.radius then [(⟨-1, 0⟩ : Vec2)] else []) ++
  (if c.position.y - c.radius ≤ 0 then [(⟨0, 1⟩ : Vec2)] else []) ++
  (if height ≤ c.position.y + c.radius then [(⟨0, -1⟩ : Vec2)] else [])

/-- The spec's reading of the boundary step: a body matching at least one
edge test is reflected exactly once, about the normal of the last matched
edge; a body matching none keeps its direction. -/
def bounceWallsSpec (width height : ℝ) (c : CircleSprite) : CircleSprite :=
  match (matchedNormals width height c).getLast? with
  | some n => { c with direction := Vec2.reflect c.direction n }
  | none => c

/-- Whether both coordinates of a vector are fixed points of the Rect
truncation, i.e. integral. -/
def truncFix (v : Vec2) : Prop :=
  ((truncZ v.x : ℝ) = v.x) ∧ ((truncZ v.y : ℝ) = v.y)

/-- The draw stream that always proposes (199, 199). -/
def constDraw : ℕ → ℤ × ℤ := fun _ => (199, 199)

/-- A fixed direction/speed stream for make_circles runs. -/
def constDS : ℕ → Vec2 × ℝ := fun _ => (⟨1, 0⟩, 0.5)

/-- On a 400 × 400 screen, placing 2 circles from the constant draw stream
never finishes, whatever iteration bound is unfolded: the rejection loop of
make_circles is unbounded and never raises a placement error. -/
def placementNeverFinishes : Prop :=
  ∀ fuel, make_circles 400 400 constDraw constDS fuel 2 0 [] = .error .stillRunning

/-! helper lemmas -/

theorem truncZ_intCast (n : ℤ) : truncZ (n : ℝ) = n := by
  unfold truncZ
  by_cases h : (0 : ℝ) ≤ (n : ℝ)
  · rw [if_pos h, Int.floor_intCast]
  · rw [if_neg h, Int.ceil_intCast]

theorem truncZ_eq (r : ℝ) (z : ℤ) (h0 : 0 ≤ r) (h1 : (z : ℝ) ≤ r)
    (h2 : r < (z : ℝ) + 1) : truncZ r = z := by
  unfold truncZ
  rw [if_pos h0]
  exact Int.floor_eq_iff.mpr ⟨h1, by linarith⟩

theorem truncZ_eq_neg (r : ℝ) (z : ℤ) (h0 : ¬ (0 ≤ r)) (h1 : (z : ℝ) - 1 < r)
    (h2 : r ≤ (z : ℝ)) : truncZ r = z := by
  unfold truncZ
  rw [if_neg h0]
  exact Int.ceil_eq_iff.mpr ⟨by linarith, h2⟩

theorem sqrtEval (x y : ℝ) (hy : 0 < y) (h : y * y = x) : Real.sqrt x = y :=
  (Real.sqrt_eq_iff_mul_self_eq_of_pos hy).mpr h

@[simp] theorem okBind {α β : Type} (a : α) (f : α → Except Err β) :
    (Except.ok a : Except Err α) >>= f = f a := rfl

@[simp] theorem errBind {α β : Type} (e : Err) (f : α → Except Err β) :
    (Except.error e : Except Err α) >>= f = .error e := rfl

@[simp] theorem pureExcept {α : Type} (a : α) : (pure a : Except Err α) = .ok a := rfl

theorem length_eval (v : Vec2) (L : ℝ) (hL : 0 < L) (h : v.x * v.x + v.y * v.y = L * L) :
    Vec2.length v = L := by
  unfold Vec2.length Vec2.length_squared
  exact sqrtEval _ _ hL (h.symm)

theorem normalize_eval (v : Vec2) (L : ℝ) (hL : Vec2.length v = L) (h0 : L ≠ 0) :
    Vec2.normalize v = .ok (L⁻¹ • v) := by
  unfold Vec2.normalize
  rw [hL, if_neg h0]

theorem setVelocity_eval (c : CircleSprite) (v : Vec2) (h : Vec2.length v ≠ 0) :
    CircleSprite.setVelocity c v =
      .ok { c with speed := Vec2.length v, direction := (Vec2.length v)⁻¹ • v } := by
  unfold CircleSprite.setVelocity
  rw [if_neg h]

theorem velocity_set (c : CircleSprite) (v : Vec2) (h : Vec2.length v ≠ 0) :
    CircleSprite.velocity
      { c with speed := Vec2.length v, direction := (Vec2.length v)⁻¹ • v } = v := by
  unfold CircleSprite.velocity
  cases v with
  | mk a b =>
    simp only [Vec2.smul_def]
    rw [Vec2.mk_inj]
    constructor <;> [skip; skip] <;> field_simp

/-! numeric evaluation helpers -/

theorem sqrt49 : Real.sqrt 49 = 7 := sqrtEval _ _ (by norm_num) (by norm_num)

theorem sqrt64 : Real.sqrt 64 = 8 := sqrtEval _ _ (by norm_num) (by norm_num)

theorem sqrt1 : Real.sqrt 1 = 1 := Real.sqrt_one

theorem tm15 : truncZ (-(3 / 2) : ℝ) = -1 := truncZ_eq_neg _ _ (by norm_num) (by norm_num) (by norm_num)

theorem t85 : truncZ ((17 / 2) : ℝ) = 8 := truncZ_eq _ _ (by norm_num) (by norm_num) (by norm_num)

theorem t0 : truncZ (0 : ℝ) = 0 := by
  have := truncZ_intCast 0
  simpa using this

/-! general vector lemmas -/

theorem length_squared_nonneg (v : Vec2) : 0 ≤ Vec2.length_squared v := by
  unfold Vec2.length_squared
  nlinarith [sq_nonneg v.x, sq_nonneg v.y]

theorem length_pos (v : Vec2) (h : Vec2.length_squared v ≠ 0) : 0 < Vec2.length v := by
  unfold Vec2.length
  exact Real.sqrt_pos.mpr (lt_of_le_of_ne (length_squared_nonneg v) (Ne.symm h))

theorem length_smul (t : ℝ) (v : Vec2) : Vec2.length (t • v) = |t| * Vec2.length v := by
  unfold Vec2.length Vec2.length_squared
  simp only [Vec2.smul_def]
  rw [show t * v.x * (t * v.x) + t * v.y * (t * v.y) = t ^ 2 * (v.x * v.x + v.y * v.y) by ring]
  rw [Real.sqrt_mul (sq_nonneg t), Real.sqrt_sq_eq_abs]

theorem setPosition_fix (c : CircleSprite) (p : Vec2) (h : truncFix p) :
    (c.setPosition p).position = p := by
  unfold CircleSprite.setPosition CircleSprite.position
  cases p with
  | mk a b =>
    obtain ⟨h1, h2⟩ := h
    simp only []
    rw [Vec2.mk_inj]
    exact ⟨h1, h2⟩

theorem setPosition_velocity (c : CircleSprite) (p : Vec2) :
    (c.setPosition p).velocity = c.velocity := rfl

theorem setPosition_radius (c : CircleSprite) (p : Vec2) :
    (c.setPosition p).radius = c.radius := rfl

theorem setVelocity_rect (c : CircleSprite) (v : Vec2) (c2 : CircleSprite)
    (h : c.setVelocity v = .ok c2) : c2.rectCenter = c.rectCenter := by
  unfold CircleSprite.setVelocity at h
  split at h
  · exact absurd h (by simp)
  · have := (Except.ok.injEq _ _).mp h
    rw [← this]

theorem setVelocity_position (c : CircleSprite) (v : Vec2) (c2 : CircleSprite)
    (h : c.setVelocity v = .ok c2) : c2.position = c.position := by
  unfold CircleSprite.position
  rw [setVelocity_rect c v c2 h]

theorem setVelocity_velocity (c : CircleSprite) (v : Vec2) (c2 : CircleSprite)
    (h : c.setVelocity v = .ok c2) : c2.velocity = v := by
  unfold CircleSprite.setVelocity at h
  split at h
  · exact absurd h (by simp)
  · have h2 := (Except.ok.injEq _ _).mp h
    rw [← h2]
    exact velocity_set c v (by assumption)

theorem normalize_neg_smul (n : Vec2) (hn : Vec2.length n = 1) (t : ℝ) (ht : t < 0) :
    Vec2.normalize (t • n) = .ok (-n) := by
  have hl : Vec2.length (t • n) = -t := by
    rw [length_smul, hn, abs_of_neg ht, mul_one]
  unfold Vec2.normalize
  rw [hl, if_neg (by linarith)]
  cases n with
  | mk a b =>
    simp only [Vec2.smul_def, Vec2.neg_def]
    rw [Except.ok.injEq, Vec2.mk_inj]
    have ht2 : t ≠ 0 := ne_of_lt ht
    constructor
    · rw [inv_neg, neg_mul, inv_mul_cancel_left₀ ht2]
    · rw [inv_neg, neg_mul, inv_mul_cancel_left₀ ht2]

theorem elastic_bounce_ok (a b : CircleSprite)
    (h : Vec2.length_squared (a.position - b.position) ≠ 0) :
    elastic_bounce a b = .ok (specElasticFormula a.velocity b.velocity a.mass b.mass
      a.position b.position) := by
  unfold elastic_bounce specElasticFormula
  rw [if_neg h]

/-! C6 -/

/-- Claim C6: the boundary step clamps, evaluates the four edge tests in
order, and reflects the direction exactly once about the inward normal of the
last matched edge, leaving bodies with no matched edge unchanged: the code's
sequential overwrite equals the spec's last-match reading. -/
theorem C6_thm (width height : ℝ) (c : CircleSprite) :
    bounceWalls width height c = bounceWallsSpec width height c := by
  unfold bounceWalls bounceWallsSpec matchedNormals
  by_cases h1 : c.position.x - c.radius ≤ 0 <;>
    by_cases h2 : width ≤ c.position.x + c.radius <;>
      by_cases h3 : c.position.y - c.radius ≤ 0 <;>
        by_cases h4 : height ≤ c.position.y + c.radius <;>
          simp [h1, h2, h3, h4]


theorem length_squared_smul (t : ℝ) (v : Vec2) :
    Vec2.length_squared (t • v) = t ^ 2 * Vec2.length_squared v := by
  unfold Vec2.length_squared
  simp only [Vec2.smul_def]
  ring

theorem length_squared_one (v : Vec2) (h : Vec2.length v = 1) :
    Vec2.length_squared v = 1 := by
  have h0 : 0 ≤ Vec2.length_squared v := length_squared_nonneg v
  have := Real.sq_sqrt h0
  unfold Vec2.length at h
  rw [h] at this
  simpa using this.symm

theorem length_inv_smul (d : Vec2) (h : Vec2.length_squared d ≠ 0) :
    Vec2.length ((Vec2.length d)⁻¹ • d) = 1 := by
  have hL : 0 < Vec2.length d := length_pos d h
  rw [length_smul, abs_of_pos (inv_pos.mpr hL), inv_mul_cancel₀ (ne_of_gt hL)]

theorem resolvePair_anatomy (c oc c2 oc2 : CircleSprite)
    (hd : Vec2.length_squared (c.position - oc.position) ≠ 0)
    (hr1 : 0 < c.radius) (hr2 : 0 < oc.radius)
    (h1 : truncFix (mathutil.midpoint c.position oc.position +
      c.radius • ((Vec2.length (c.position - oc.position))⁻¹ • (c.position - oc.position))))
    (h2 : truncFix (mathutil.midpoint c.position oc.position -
      oc.radius • ((Vec2.length (c.position - oc.position))⁻¹ • (c.position - oc.position))))
    (hok : resolvePair c oc = .ok (c2, oc2)) :
    c2.position = mathutil.midpoint c.position oc.position +
        c.radius • ((Vec2.length (c.position - oc.position))⁻¹ • (c.position - oc.position)) ∧
      oc2.position = mathutil.midpoint c.position oc.position -
        oc.radius • ((Vec2.length (c.position - oc.position))⁻¹ • (c.position - oc.position)) ∧
      c2.velocity = specElasticFormula c.velocity oc.velocity c.mass oc.mass
        c2.position oc2.position := by
  set d := c.position - oc.position with hdd
  set L := Vec2.length d with hLd
  have hL : 0 < L := length_pos d hd
  have hLne : L ≠ 0 := ne_of_gt hL
  set n : Vec2 := L⁻¹ • d with hnd
  set mid : Vec2 := mathutil.midpoint c.position oc.position with hmd
  have hnlen : Vec2.length n = 1 := by
    rw [hnd, hLd]
    exact length_inv_smul d hd
  have hn1 : Vec2.normalize d = .ok n := by
    rw [hnd]
    exact normalize_eval d L hLd.symm hLne
  unfold resolvePair at hok
  rw [hn1] at hok
  simp only [okBind] at hok
  have hc1pos : (c.setPosition (mid + c.radius • n)).position = mid + c.radius • n :=
    setPosition_fix _ _ h1
  rw [hc1pos] at hok
  have harg : oc.position - (mid + c.radius • n) = (-(L / 2 + c.radius)) • n := by
    rw [hnd, hmd, hdd]
    unfold mathutil.midpoint
    simp only [Vec2.sub_def, Vec2.add_def, Vec2.smul_def, Vec2.mk_inj]
    constructor
    · field_simp
      ring
    · field_simp
      ring
  rw [harg] at hok
  have hn2 : Vec2.normalize ((-(L / 2 + c.radius)) • n) = .ok (-n) :=
    normalize_neg_smul n hnlen _ (by nlinarith)
  rw [hn2] at hok
  simp only [okBind] at hok
  have hmn : mid + oc.radius • (-n) = mid - oc.radius • n := by
    simp only [Vec2.neg_def, Vec2.add_def, Vec2.sub_def, Vec2.smul_def, Vec2.mk_inj]
    constructor <;> ring
  rw [hmn] at hok
  have hoc1pos : (oc.setPosition (mid - oc.radius • n)).position = mid - oc.radius • n :=
    setPosition_fix _ _ h2
  have hdiff : (c.setPosition (mid + c.radius • n)).position -
      (oc.setPosition (mid - oc.radius • n)).position = (c.radius + oc.radius) • n := by
    rw [hc1pos, hoc1pos]
    simp only [Vec2.sub_def, Vec2.add_def, Vec2.smul_def, Vec2.mk_inj]
    constructor <;> ring
  have hds : Vec2.length_squared ((c.setPosition (mid + c.radius • n)).position -
      (oc.setPosition (mid - oc.radius • n)).position) ≠ 0 := by
    rw [hdiff, length_squared_smul, length_squared_one n hnlen]
    positivity
  have hel1 := elastic_bounce_ok _ _ hds
  rw [hel1] at hok
  simp only [okBind] at hok
  cases hsv : CircleSprite.setVelocity (c.setPosition (mid + c.radius • n))
      (specElasticFormula (c.setPosition (mid + c.radius • n)).velocity
        (oc.setPosition (mid - oc.radius • n)).velocity
        (c.setPosition (mid + c.radius • n)).mass
        (oc.setPosition (mid - oc.radius • n)).mass
        (c.setPosition (mid + c.radius • n)).position
        (oc.setPosition (mid - oc.radius • n)).position) with
  | error e =>
    rw [hsv] at hok
    exact absurd hok (by simp)
  | ok c2a =>
    rw [hsv] at hok
    simp only [okBind] at hok
    have hc2apos : c2a.position = (c.setPosition (mid + c.radius • n)).position :=
      setVelocity_position _ _ _ hsv
    have hds2 : Vec2.length_squared ((oc.setPosition (mid - oc.radius • n)).position -
        c2a.position) ≠ 0 := by
      rw [hc2apos, hc1pos, hoc1pos]
      have : (mid - oc.radius • n) - (mid + c.radius • n) = (-(c.radius + oc.radius)) • n := by
        simp only [Vec2.sub_def, Vec2.add_def, Vec2.smul_def, Vec2.mk_inj]
        constructor <;> ring
      rw [this, length_squared_smul, length_squared_one n hnlen]
      have : (-(c.radius + oc.radius)) ^ 2 = (c.radius + oc.radius) ^ 2 := by ring
      rw [this]
      positivity
    have hel2 := elastic_bounce_ok _ _ hds2
    rw [hel2] at hok
    simp only [okBind] at hok
    cases hsv2 : CircleSprite.setVelocity (oc.setPosition (mid - oc.radius • n))
        (-(specElasticFormula (oc.setPosition (mid - oc.radius • n)).velocity c2a.velocity
          (oc.setPosition (mid - oc.radius • n)).mass c2a.mass
          (oc.setPosition (mid - oc.radius • n)).position c2a.position)) with
    | error e =>
      rw [hsv2] at hok
      exact absurd hok (by simp)
    | ok oc2a =>
      rw [hsv2] at hok
      simp only [okBind, pureExcept, Except.ok.injEq, Prod.mk.injEq] at hok
      obtain ⟨hc2, hoc2⟩ := hok
      rw [← hc2, ← hoc2]
      refine ⟨by rw [hc2apos, hc1pos], by rw [setVelocity_position _ _ _ hsv2, hoc1pos], ?_⟩
      have hv : c2a.velocity = specElasticFormula
          (c.setPosition (mid + c.radius • n)).velocity
          (oc.setPosition (mid - oc.radius • n)).velocity
          (c.setPosition (mid + c.radius • n)).mass
          (oc.setPosition (mid - oc.radius • n)).mass
          (c.setPosition (mid + c.radius • n)).position
          (oc.setPosition (mid - oc.radius • n)).position :=
        setVelocity_velocity _ _ _ hsv
      rw [hv, hc2apos, setVelocity_position _ _ _ hsv2, setPosition_velocity,
        setPosition_velocity]
      rfl


/-- Claim C2 amended: immediately after a pair's own resolution, and hence at
the end of a tick of a two-body world, the two centers are exactly the sum of
the radii apart whenever the re-seat target coordinates are integral (so the
Rect truncation is exact); with three or more bodies, or fractional re-seat
targets, the end-of-tick no-overlap invariant fails (see the
counterexample). -/
theorem C2_amended (c oc c2 oc2 : CircleSprite)
    (hd : Vec2.length_squared (c.position - oc.position) ≠ 0)
    (hr1 : 0 < c.radius) (hr2 : 0 < oc.radius)
    (h1 : truncFix (mathutil.midpoint c.position oc.position +
      c.radius • ((Vec2.length (c.position - oc.position))⁻¹ • (c.position - oc.position))))
    (h2 : truncFix (mathutil.midpoint c.position oc.position -
      oc.radius • ((Vec2.length (c.position - oc.position))⁻¹ • (c.position - oc.position))))
    (hok : resolvePair c oc = .ok (c2, oc2)) :
    Vec2.length (c2.position - oc2.position) = c.radius + oc.radius := by
  obtain ⟨hp1, hp2, _⟩ := resolvePair_anatomy c oc c2 oc2 hd hr1 hr2 h1 h2 hok
  rw [hp1, hp2]
  have hcomb : (mathutil.midpoint c.position oc.position +
        c.radius • ((Vec2.length (c.position - oc.position))⁻¹ • (c.position - oc.position))) -
      (mathutil.midpoint c.position oc.position -
        oc.radius • ((Vec2.length (c.position - oc.position))⁻¹ • (c.position - oc.position))) =
      (c.radius + oc.radius) • ((Vec2.length (c.position - oc.position))⁻¹ •
        (c.position - oc.position)) := by
    simp only [Vec2.sub_def, Vec2.add_def, Vec2.smul_def, Vec2.mk_inj]
    constructor <;> ring
  rw [hcomb, length_smul, length_inv_smul _ hd, mul_one, abs_of_pos (by linarith)]

theorem smul_smul_vec (a b : ℝ) (v : Vec2) : a • (b • v) = (a * b) • v := by
  simp only [Vec2.smul_def, Vec2.mk_inj]
  constructor <;> ring

theorem one_smul_vec (v : Vec2) : (1 : ℝ) • v = v := by
  cases v with
  | mk a b => simp only [Vec2.smul_def, one_mul]

theorem coeff_scale (M L D u : ℝ) (hu : u ≠ 0) :
    M * (u * D / (u ^ 2 * L)) * u = M * (D / L) := by
  rcases eq_or_ne L 0 with hL | hL
  · rw [hL]
    simp
  · field_simp
    ring

theorem specElasticFormula_parallel (va vb : Vec2) (ma mb : ℝ) (pa pb qa qb n : Vec2)
    (s t : ℝ) (hs : s ≠ 0) (ht : t ≠ 0)
    (hab : pa - pb = s • n) (hq : qa - qb = t • n) :
    specElasticFormula va vb ma mb pa pb = specElasticFormula va vb ma mb qa qb := by
  unfold specElasticFormula
  rw [hab, hq, length_squared_smul, length_squared_smul]
  have hdot : ∀ (v : Vec2) (r : ℝ), Vec2.dot v (r • n) = r * Vec2.dot v n := by
    intro v r
    unfold Vec2.dot
    simp only [Vec2.smul_def]
    ring
  rw [hdot, hdot, smul_smul_vec, smul_smul_vec,
    coeff_scale ((2 * mb) / (ma + mb)) (Vec2.length_squared n) (Vec2.dot (va - vb) n) s hs,
    coeff_scale ((2 * mb) / (ma + mb)) (Vec2.length_squared n) (Vec2.dot (va - vb) n) t ht]

/-- Claim C4 amended: the impulse direction term is computed from the
post-re-seat (truncated) positions, not the pre-resolution ones; but whenever
the re-seat targets are integral, the post-re-seat separation is a positive
multiple of the pre-resolution separation and the formula is scale-invariant,
so the first body's new velocity then equals the formula evaluated at the
pre-resolution positions. -/
theorem C4_amended (c oc c2 oc2 : CircleSprite)
    (hd : Vec2.length_squared (c.position - oc.position) ≠ 0)
    (hr1 : 0 < c.radius) (hr2 : 0 < oc.radius)
    (h1 : truncFix (mathutil.midpoint c.position oc.position +
      c.radius • ((Vec2.length (c.position - oc.position))⁻¹ • (c.position - oc.position))))
    (h2 : truncFix (mathutil.midpoint c.position oc.position -
      oc.radius • ((Vec2.length (c.position - oc.position))⁻¹ • (c.position - oc.position))))
    (hok : resolvePair c oc = .ok (c2, oc2)) :
    c2.velocity = specElasticFormula c.velocity oc.velocity c.mass oc.mass
      c.position oc.position := by
  obtain ⟨hp1, hp2, hv⟩ := resolvePair_anatomy c oc c2 oc2 hd hr1 hr2 h1 h2 hok
  rw [hv]
  have hL : 0 < Vec2.length (c.position - oc.position) := length_pos _ hd
  apply specElasticFormula_parallel _ _ _ _ _ _ _ _
    ((Vec2.length (c.position - oc.position))⁻¹ • (c.position - oc.position))
    (c.radius + oc.radius) (Vec2.length (c.position - oc.position))
    (by linarith) (ne_of_gt hL)
  · rw [hp1, hp2]
    simp only [Vec2.sub_def, Vec2.add_def, Vec2.smul_def, Vec2.mk_inj]
    constructor <;> ring
  · rw [smul_smul_vec, mul_inv_cancel₀ (ne_of_gt hL), one_smul_vec]


theorem setPosition_intCast (c : CircleSprite) (a b : ℤ)
    (h : c.rectCenter = (a, b)) :
    c.setPosition ⟨(a : ℝ), (b : ℝ)⟩ = c := by
  unfold CircleSprite.setPosition
  cases c with
  | mk rc dir sp rad =>
    simp only at h
    simp only [truncZ_intCast, h]

theorem moveAndClamp_zero (width height : ℝ) (c : CircleSprite)
    (hx1 : c.radius ≤ (c.rectCenter.1 : ℝ)) (hx2 : (c.rectCenter.1 : ℝ) ≤ width - c.radius)
    (hy1 : c.radius ≤ (c.rectCenter.2 : ℝ)) (hy2 : (c.rectCenter.2 : ℝ) ≤ height - c.radius) :
    moveAndClamp width height 0 c = c := by
  unfold moveAndClamp CircleSprite.position CircleSprite.velocity
  simp only [Vec2.smul_def, Vec2.add_def, zero_mul, mul_zero, add_zero]
  rw [max_eq_left (by linarith), min_eq_left (by linarith),
    max_eq_left (by linarith), min_eq_left (by linarith)]
  exact setPosition_intCast c _ _ rfl

theorem bounceWalls_rect (width height : ℝ) (c : CircleSprite) :
    (bounceWalls width height c).rectCenter = c.rectCenter := by
  unfold bounceWalls
  dsimp only
  repeat' split
  all_goals rfl

theorem bounceWalls_speed (width height : ℝ) (c : CircleSprite) :
    (bounceWalls width height c).speed = c.speed := by
  unfold bounceWalls
  dsimp only
  repeat' split
  all_goals rfl

theorem moveAndClamp_speed (width height dt : ℝ) (c : CircleSprite) :
    (moveAndClamp width height dt c).speed = c.speed := rfl

theorem normalize_zero_vec : Vec2.normalize ⟨0, 0⟩ = .error .valueError := by
  unfold Vec2.normalize Vec2.length Vec2.length_squared
  norm_num

/-- Claim C7 amended: update_scene is not total; two colliding bodies whose
centers coincide exactly make the zero-separation vector reach
Vector2.normalize, and the resulting ValueError propagates out of the tick
(there is no fallback direction). -/
theorem C7_amended (width height : ℝ) (c oc : CircleSprite)
    (hcc : c.rectCenter = oc.rectCenter)
    (hx1 : c.radius ≤ (c.rectCenter.1 : ℝ)) (hx2 : (c.rectCenter.1 : ℝ) ≤ width - c.radius)
    (hy1 : c.radius ≤ (c.rectCenter.2 : ℝ)) (hy2 : (c.rectCenter.2 : ℝ) ≤ height - c.radius)
    (ox1 : oc.radius ≤ (oc.rectCenter.1 : ℝ)) (ox2 : (oc.rectCenter.1 : ℝ) ≤ width - oc.radius)
    (oy1 : oc.radius ≤ (oc.rectCenter.2 : ℝ)) (oy2 : (oc.rectCenter.2 : ℝ) ≤ height - oc.radius) :
    update_scene width height 0 [c, oc] = .error .valueError := by
  unfold update_scene
  dsimp only
  simp only [List.map_cons, List.map_nil, List.length_cons, List.length_nil]
  rw [moveAndClamp_zero width height c hx1 hx2 hy1 hy2,
    moveAndClamp_zero width height oc ox1 ox2 oy1 oy2]
  have hpi : pairIndices (0 + 1 + 1) = [(0, 1)] := by decide
  rw [hpi]
  have hpos : (bounceWalls width height c).position = (bounceWalls width height oc).position := by
    unfold CircleSprite.position
    rw [bounceWalls_rect, bounceWalls_rect, hcc]
  have hsub : (bounceWalls width height c).position - (bounceWalls width height oc).position
      = ⟨0, 0⟩ := by
    rw [hpos]
    simp only [Vec2.sub_def, Vec2.mk_inj]
    constructor <;> ring
  have hcol : collide_circle (bounceWalls width height c) (bounceWalls width height oc) := by
    unfold collide_circle
    rw [hsub]
    unfold Vec2.length_squared
    simp only
    nlinarith [sq_nonneg ((bounceWalls width height c).radius + (bounceWalls width height oc).radius)]
  have hres : resolvePair (bounceWalls width height c) (bounceWalls width height oc)
      = .error .valueError := by
    unfold resolvePair
    rw [hsub, normalize_zero_vec]
    rfl
  simp only [pairLoop, List.getD_cons_zero, List.getD_cons_succ]
  rw [if_pos hcol, hres]
  rfl

/-- Claim C9 amended: a body's speed is preserved by a collision-free tick
(integration and boundary reflection never change the stored speed), so the
construction-time bounds persist while no collision occurs; collisions break
the bounds (see the counterexample). -/
theorem C9_amended (width height dt : ℝ) (c : CircleSprite)
    (res : List CircleSprite × List (ℕ × ℕ))
    (hok : update_scene width height dt [c] = .ok res) :
    res.1.map CircleSprite.speed = [c.speed] ∧ res.2 = [] := by
  unfold update_scene at hok
  dsimp only at hok
  simp only [List.map_cons, List.map_nil, List.length_cons, List.length_nil] at hok
  have hpi : pairIndices (0 + 1) = [] := by decide
  rw [hpi] at hok
  simp only [pairLoop, okBind] at hok
  unfold lastLoopVar at hok
  norm_num [List.length_cons, List.length_nil] at hok
  split at hok
  · split at hok
    · simp only [pureExcept, Except.ok.injEq] at hok
      rw [← hok]
      simp only [List.map_cons, List.map_nil, bounceWalls_speed, moveAndClamp_speed]
      constructor <;> trivial
    · exact absurd hok (by simp)
  · exact absurd hok (by simp)

/-- Claim C10 amended: the position setter/getter round-trips exactly only
for points whose coordinates are integral; every coordinate is truncated
toward zero by the Rect store, so fractional positions are quantized (see the
counterexample). -/
theorem C10_amended (c : CircleSprite) (p : Vec2) (h : truncFix p) :
    (c.setPosition p).position = p := setPosition_fix c p h


theorem placeOne_stuck (placed : List CircleSprite) (σ : ℕ → ℤ × ℤ) (hne : placed ≠ [])
    (hblock : ∀ k, ∃ c ∈ placed, c.contains ⟨((σ k).1 : ℝ), ((σ k).2 : ℝ)⟩ 3) :
    ∀ fuel k, placeOne placed σ fuel k = .error .stillRunning := by
  intro fuel
  induction fuel with
  | zero =>
    intro k
    unfold placeOne
    rw [if_pos ⟨hblock k, hne⟩]
  | succ n ih =>
    intro k
    unfold placeOne
    rw [if_pos ⟨hblock k, hne⟩]
    exact ih (k + 1)

theorem make_circles_stuck (width height : ℤ) (σ : ℕ → ℤ × ℤ) (ds : ℕ → Vec2 × ℝ)
    (hassert : 0 < (σ 0).1 ∧ (σ 0).1 < width ∧ 0 < (σ 0).2 ∧ (σ 0).2 < height)
    (hblock : ∀ k, CircleSprite.contains
      { rectCenter := σ 0, direction := (ds 0).1, speed := (ds 0).2, radius := 32 }
      ⟨((σ k).1 : ℝ), ((σ k).2 : ℝ)⟩ 3) :
    ∀ fuel, make_circles width height σ ds fuel 2 0 [] = .error .stillRunning := by
  intro fuel
  unfold make_circles
  have h1 : placeOne [] σ fuel 0 = .ok (σ 0, 1) := by
    unfold placeOne
    rw [if_neg (by simp)]
  rw [h1]
  simp only [List.nil_append, List.length_nil]
  rw [if_pos hassert]
  unfold make_circles
  rw [placeOne_stuck
    [{ rectCenter := σ 0, direction := (ds 0).1, speed := (ds 0).2, radius := 32 }] σ
    (by simp)
    (fun k => ⟨_, List.mem_singleton.mpr rfl, hblock k⟩) fuel 1]


/-! projections for stating evaluation results -/

def bodyPosition (r : Except Err (List CircleSprite × List (ℕ × ℕ))) (i : ℕ) : Option Vec2 :=
  match r with
  | .error _ => none
  | .ok (cs, _) => some ((cs.getD i default).position)

def bodyVelocity (r : Except Err (List CircleSprite × List (ℕ × ℕ))) (i : ℕ) : Option Vec2 :=
  match r with
  | .error _ => none
  | .ok (cs, _) => some ((cs.getD i default).velocity)

def bodySpeed (r : Except Err (List CircleSprite × List (ℕ × ℕ))) (i : ℕ) : Option ℝ :=
  match r with
  | .error _ => none
  | .ok (cs, _) => some ((cs.getD i default).speed)

def eventList (r : Except Err (List CircleSprite × List (ℕ × ℕ))) :
    Option (List (ℕ × ℕ)) :=
  match r with
  | .error _ => none
  | .ok (_, ev) => some ev

/-! evaluation lemmas for the claim theorems -/

theorem sqrt81 : Real.sqrt 81 = 9 := sqrtEval _ _ (by norm_num) (by norm_num)

theorem length_eq_zero_iff (v : Vec2) :
    Vec2.length v = 0 ↔ v.x * v.x + v.y * v.y ≤ 0 := by
  unfold Vec2.length Vec2.length_squared
  exact Real.sqrt_eq_zero'

theorem length_ne_zero_iff (v : Vec2) :
    Vec2.length v ≠ 0 ↔ 0 < v.x * v.x + v.y * v.y := by
  unfold Vec2.length Vec2.length_squared
  exact Real.sqrt_ne_zero'

theorem lastLoopVar_one (a : CircleSprite) : lastLoopVar [a] = .ok a := by
  unfold lastLoopVar
  norm_num

theorem lastLoopVar_two (a b : CircleSprite) : lastLoopVar [a, b] = .ok a := by
  unfold lastLoopVar
  norm_num

theorem lastLoopVar_three (a b c : CircleSprite) : lastLoopVar [a, b, c] = .ok b := by
  unfold lastLoopVar
  norm_num

theorem len7 : Vec2.length ⟨-7, 0⟩ = 7 := length_eval _ _ (by norm_num) (by norm_num)

theorem len9 : Vec2.length ⟨9, 0⟩ = 9 := length_eval _ _ (by norm_num) (by norm_num)

theorem len4 : Vec2.length ⟨-4, 0⟩ = 4 := length_eval _ _ (by norm_num) (by norm_num)

theorem len7p : Vec2.length ⟨7, 0⟩ = 7 := length_eval _ _ (by norm_num) (by norm_num)

theorem len1 : Vec2.length ⟨-1, 0⟩ = 1 := length_eval _ _ (by norm_num) (by norm_num)

theorem len6 : Vec2.length ⟨6, 0⟩ = 6 := length_eval _ _ (by norm_num) (by norm_num)

theorem len8 : Vec2.length ⟨8, 0⟩ = 8 := length_eval _ _ (by norm_num) (by norm_num)

theorem len10 : Vec2.length ⟨-10, 0⟩ = 10 := length_eval _ _ (by norm_num) (by norm_num)

theorem len10p : Vec2.length ⟨10, 0⟩ = 10 := length_eval _ _ (by norm_num) (by norm_num)

theorem lenhalf : Vec2.length ⟨0, 1/2⟩ = 1/2 := length_eval _ _ (by norm_num) (by norm_num)

theorem lenfifth : Vec2.length ⟨0, 1/5⟩ = 1/5 := length_eval _ _ (by norm_num) (by norm_num)

theorem len2fifth : Vec2.length ⟨0, 2/5⟩ = 2/5 := length_eval _ _ (by norm_num) (by norm_num)

/-- Claim C1: at the failing input, the code's post-collision velocity of the
second body is the negation of elastic_bounce evaluated with the first body's
already updated velocity, and differs from the spec's direct symmetric
substitution evaluated on the pre-collision velocities. -/
theorem C1_eval :
    bodyVelocity (update_scene 100 100 0
        [⟨(40, 50), ⟨1/2, 1/10⟩, 1, 5⟩, ⟨(47, 50), ⟨-3/10, 1/5⟩, 1, 5⟩]) 1 =
      some ⟨3/10, -1/5⟩ ∧
    specElasticFormula
        (CircleSprite.velocity ⟨(47, 50), ⟨-3/10, 1/5⟩, 1, 5⟩)
        (CircleSprite.velocity ⟨(40, 50), ⟨1/2, 1/10⟩, 1, 5⟩)
        (CircleSprite.mass ⟨(47, 50), ⟨-3/10, 1/5⟩, 1, 5⟩)
        (CircleSprite.mass ⟨(40, 50), ⟨1/2, 1/10⟩, 1, 5⟩)
        (CircleSprite.position ⟨(47, 50), ⟨-3/10, 1/5⟩, 1, 5⟩)
        (CircleSprite.position ⟨(40, 50), ⟨1/2, 1/10⟩, 1, 5⟩) = ⟨1/2, 1/5⟩ ∧
    (⟨3/10, -1/5⟩ : Vec2) ≠ ⟨1/2, 1/5⟩ := by
  have hpi : pairIndices (0 + 1 + 1) = [(0, 1)] := by decide
  have t40 : truncZ ((40 : ℝ)) = 40 := truncZ_eq _ _ (by norm_num) (by norm_num) (by norm_num)
  have t47 : truncZ ((47 : ℝ)) = 47 := truncZ_eq _ _ (by norm_num) (by norm_num) (by norm_num)
  have t50 : truncZ ((50 : ℝ)) = 50 := truncZ_eq _ _ (by norm_num) (by norm_num) (by norm_num)
  have t38 : truncZ ((77 / 2 : ℝ)) = 38 := truncZ_eq _ _ (by norm_num) (by norm_num) (by norm_num)
  have t48 : truncZ ((97 / 2 : ℝ)) = 48 := truncZ_eq _ _ (by norm_num) (by norm_num) (by norm_num)
  refine ⟨?_, ?_, ?_⟩ <;>
    norm_num [update_scene, moveAndClamp, bounceWalls, pairLoop, resolvePair,
      mathutil.midpoint, elastic_bounce, collide_circle, bodyVelocity, specElasticFormula,
      hpi, CircleSprite.position, CircleSprite.setPosition, CircleSprite.setVelocity,
      CircleSprite.velocity, CircleSprite.mass,
      Vec2.normalize, Vec2.reflect, Vec2.dot, Vec2.length_squared,
      t40, t47, t50, t38, t48, len7, len9,
      lastLoopVar_one, lastLoopVar_two, lastLoopVar_three,
      length_eq_zero_iff, length_ne_zero_iff, mul_inv_cancel_left₀,
      max_def, min_def, List.getD_cons_zero, List.getD_cons_succ,
      List.getElem?_cons_zero, List.getElem?_cons_succ, Option.getD_some]

set_option maxHeartbeats 2000000 in
/-- Claim C2 counterexample: in a three-body world, resolving the later pair
(1, 2) pushes body 1 back into body 0 after the pair (0, 1) has already been
visited, so the tick ends with centers 8 apart while the radii sum to 10 - an
overlap of 2 units, far beyond floating-point tolerance. -/
theorem C2_counterexample :
    bodyPosition (update_scene 100 100 0
        [⟨(9, 50), ⟨0, 1⟩, 1/2, 5⟩, ⟨(20, 50), ⟨1, 0⟩, 1/2, 5⟩, ⟨(24, 50), ⟨-1, 0⟩, 1/2, 5⟩]) 0 =
      some ⟨9, 50⟩ ∧
    bodyPosition (update_scene 100 100 0
        [⟨(9, 50), ⟨0, 1⟩, 1/2, 5⟩, ⟨(20, 50), ⟨1, 0⟩, 1/2, 5⟩, ⟨(24, 50), ⟨-1, 0⟩, 1/2, 5⟩]) 1 =
      some ⟨17, 50⟩ ∧
    Vec2.length ((⟨9, 50⟩ : Vec2) - ⟨17, 50⟩) = 8 ∧ ((8 : ℝ) < 5 + 5 - 1) := by
  have hpi : pairIndices (0 + 1 + 1 + 1) = [(0, 1), (0, 2), (1, 2)] := by decide
  have t9 : truncZ ((9 : ℝ)) = 9 := truncZ_eq _ _ (by norm_num) (by norm_num) (by norm_num)
  have t20 : truncZ ((20 : ℝ)) = 20 := truncZ_eq _ _ (by norm_num) (by norm_num) (by norm_num)
  have t24 : truncZ ((24 : ℝ)) = 24 := truncZ_eq _ _ (by norm_num) (by norm_num) (by norm_num)
  have t50 : truncZ ((50 : ℝ)) = 50 := truncZ_eq _ _ (by norm_num) (by norm_num) (by norm_num)
  have t17 : truncZ ((17 : ℝ)) = 17 := truncZ_eq _ _ (by norm_num) (by norm_num) (by norm_num)
  have t27 : truncZ ((27 : ℝ)) = 27 := truncZ_eq _ _ (by norm_num) (by norm_num) (by norm_num)
  have l8 : Vec2.length ⟨-8, 0⟩ = 8 := length_eval _ _ (by norm_num) (by norm_num)
  refine ⟨?_, ?_, ?_, by norm_num⟩ <;>
    norm_num [update_scene, moveAndClamp, bounceWalls, pairLoop, resolvePair,
      mathutil.midpoint, elastic_bounce, collide_circle, bodyPosition,
      hpi, CircleSprite.position, CircleSprite.setPosition, CircleSprite.setVelocity,
      CircleSprite.velocity, CircleSprite.mass,
      Vec2.normalize, Vec2.reflect, Vec2.dot, Vec2.length_squared,
      t9, t20, t24, t50, t17, t27, len4, len7p, l8,
      lastLoopVar_one, lastLoopVar_two, lastLoopVar_three,
      length_eq_zero_iff, length_ne_zero_iff, mul_inv_cancel_left₀,
      max_def, min_def, List.getD_cons_zero, List.getD_cons_succ,
      List.getElem?_cons_zero, List.getElem?_cons_succ, Option.getD_some]

/-- Claim C3: collision resolution re-seats body 0 at x = 0 < radius = 5,
outside the arena, and update_scene then aborts on its own trailing
containment assert - containment does not hold at the end of every tick. -/
theorem C3_eval :
    update_scene 100 100 0
        [⟨(5, 50), ⟨0, 1⟩, 1/2, 5⟩, ⟨(6, 50), ⟨0, -1⟩, 1/2, 5⟩] =
      .error .assertionError ∧
    bodyPosition (pairLoop [⟨(5, 50), ⟨0, 1⟩, 1/2, 5⟩, ⟨(6, 50), ⟨0, -1⟩, 1/2, 5⟩] []
        (pairIndices 2)) 0 = some ⟨0, 50⟩ ∧
    ((0 : ℝ) < 5) := by
  have hpi : pairIndices (0 + 1 + 1) = [(0, 1)] := by decide
  have hpi2 : pairIndices 2 = [(0, 1)] := by decide
  have t5 : truncZ ((5 : ℝ)) = 5 := truncZ_eq _ _ (by norm_num) (by norm_num) (by norm_num)
  have t6 : truncZ ((6 : ℝ)) = 6 := truncZ_eq _ _ (by norm_num) (by norm_num) (by norm_num)
  have t50 : truncZ ((50 : ℝ)) = 50 := truncZ_eq _ _ (by norm_num) (by norm_num) (by norm_num)
  have th : truncZ ((1 / 2 : ℝ)) = 0 := truncZ_eq _ _ (by norm_num) (by norm_num) (by norm_num)
  have t10 : truncZ ((21 / 2 : ℝ)) = 10 := truncZ_eq _ _ (by norm_num) (by norm_num) (by norm_num)
  refine ⟨?_, ?_, by norm_num⟩ <;>
    norm_num [update_scene, moveAndClamp, bounceWalls, pairLoop, resolvePair,
      mathutil.midpoint, elastic_bounce, collide_circle, bodyPosition,
      hpi, hpi2, CircleSprite.position, CircleSprite.setPosition, CircleSprite.setVelocity,
      CircleSprite.velocity, CircleSprite.mass,
      Vec2.normalize, Vec2.reflect, Vec2.dot, Vec2.length_squared,
      t5, t6, t50, th, t10, len1, len6,
      lastLoopVar_one, lastLoopVar_two, lastLoopVar_three,
      length_eq_zero_iff, length_ne_zero_iff, mul_inv_cancel_left₀,
      max_def, min_def, List.getD_cons_zero, List.getD_cons_succ,
      List.getElem?_cons_zero, List.getElem?_cons_succ, Option.getD_some]


/-- Claim C5 counterexample: on the spec scenario (radius 5, centers (0,0)
and (7,0)), the re-seat targets (-1.5, 0) and (8.5, 0) are truncated toward
zero by the Rect store, leaving the centers 9 apart, not exactly 10. -/
theorem C5_counterexample :
    bodyPosition (pairLoop [⟨(0, 0), ⟨1, 0⟩, 1, 5⟩, ⟨(7, 0), ⟨-1, 0⟩, 1, 5⟩] []
        (pairIndices 2)) 0 = some ⟨-1, 0⟩ ∧
    bodyPosition (pairLoop [⟨(0, 0), ⟨1, 0⟩, 1, 5⟩, ⟨(7, 0), ⟨-1, 0⟩, 1, 5⟩] []
        (pairIndices 2)) 1 = some ⟨8, 0⟩ ∧
    Vec2.length ((⟨-1, 0⟩ : Vec2) - ⟨8, 0⟩) = 9 ∧ ((9 : ℝ) ≠ 10) := by
  have hpi : pairIndices 2 = [(0, 1)] := by decide
  have tm15 : truncZ (-(3 / 2) : ℝ) = -1 :=
    truncZ_eq_neg _ _ (by norm_num) (by norm_num) (by norm_num)
  have t85 : truncZ ((17 / 2) : ℝ) = 8 := truncZ_eq _ _ (by norm_num) (by norm_num) (by norm_num)
  have t0 : truncZ ((0 : ℝ)) = 0 := truncZ_eq _ _ (by norm_num) (by norm_num) (by norm_num)
  have l9 : Vec2.length ⟨-9, 0⟩ = 9 := length_eval _ _ (by norm_num) (by norm_num)
  refine ⟨?_, ?_, ?_, by norm_num⟩ <;>
    norm_num [pairLoop, resolvePair, mathutil.midpoint, elastic_bounce, collide_circle,
      bodyPosition, hpi, CircleSprite.position, CircleSprite.setPosition,
      CircleSprite.setVelocity, CircleSprite.velocity, CircleSprite.mass,
      Vec2.normalize, Vec2.dot, Vec2.length_squared,
      tm15, t85, t0, len7, len8, l9,
      length_eq_zero_iff, length_ne_zero_iff, mul_inv_cancel_left₀,
      List.getD_cons_zero, List.getD_cons_succ,
      List.getElem?_cons_zero, List.getElem?_cons_succ, Option.getD_some]

/-- Claim C5 amended: on the spec scenario the collision pass re-seats the
bodies to (-1, 0) and (8, 0) (the exact re-seat targets truncated toward
zero), swaps the two velocities, and emits exactly one event (0, 1). -/
theorem C5_thm :
    pairLoop [⟨(0, 0), ⟨1, 0⟩, 1, 5⟩, ⟨(7, 0), ⟨-1, 0⟩, 1, 5⟩] [] (pairIndices 2) =
      .ok ([⟨(-1, 0), ⟨-1, 0⟩, 1, 5⟩, ⟨(8, 0), ⟨1, 0⟩, 1, 5⟩], [(0, 1)]) := by
  have hpi : pairIndices 2 = [(0, 1)] := by decide
  have tm15 : truncZ (-(3 / 2) : ℝ) = -1 :=
    truncZ_eq_neg _ _ (by norm_num) (by norm_num) (by norm_num)
  have t85 : truncZ ((17 / 2) : ℝ) = 8 := truncZ_eq _ _ (by norm_num) (by norm_num) (by norm_num)
  have t0 : truncZ ((0 : ℝ)) = 0 := truncZ_eq _ _ (by norm_num) (by norm_num) (by norm_num)
  rw [hpi]
  norm_num [pairLoop, resolvePair, mathutil.midpoint, elastic_bounce, collide_circle,
    CircleSprite.position, CircleSprite.setPosition, CircleSprite.setVelocity,
    CircleSprite.velocity, CircleSprite.mass,
    Vec2.normalize, Vec2.dot, Vec2.length_squared, Vec2.length,
    sqrt49, sqrt64, sqrt1, tm15, t85, t0,
    Real.sqrt_eq_zero', Real.sqrt_ne_zero', mul_inv_cancel_left₀,
    List.getD_cons_zero, List.getD_cons_succ]

/-- Claim C7 counterexample: a tick over two bodies with exactly coincident
centers raises (zero-vector normalize), so tick does not run to completion on
every valid world state. -/
theorem C7_counterexample :
    update_scene 100 100 0 [⟨(50, 50), ⟨1, 0⟩, 1, 5⟩, ⟨(50, 50), ⟨0, 1⟩, 1, 5⟩] =
      .error .valueError := by
  have hpi : pairIndices (0 + 1 + 1) = [(0, 1)] := by decide
  have t50 : truncZ ((50 : ℝ)) = 50 := truncZ_eq _ _ (by norm_num) (by norm_num) (by norm_num)
  norm_num [update_scene, moveAndClamp, bounceWalls, pairLoop, resolvePair,
    mathutil.midpoint, collide_circle, hpi,
    CircleSprite.position, CircleSprite.setPosition,
    CircleSprite.velocity, CircleSprite.mass,
    Vec2.normalize, Vec2.reflect, Vec2.dot, Vec2.length_squared,
    t50, length_eq_zero_iff, length_ne_zero_iff,
    max_def, min_def, List.getD_cons_zero, List.getD_cons_succ,
    List.getElem?_cons_zero, List.getElem?_cons_succ, Option.getD_some]

/-- Claim C9 counterexample: both bodies start with speed 0.7 = max_speed
(a constructible state), yet after one collision body 0's stored speed is
sqrt(0.98) > max_speed: the speed bound does not hold at every point of a
body's lifetime. -/
theorem C9_counterexample :
    bodySpeed (update_scene 100 100 0
        [⟨(40, 50), ⟨0, 1⟩, 7/10, 5⟩, ⟨(47, 50), ⟨-1, 0⟩, 7/10, 5⟩]) 0 =
      some (Vec2.length ⟨-7/10, 7/10⟩) ∧
    CircleSprite.max_speed < Vec2.length ⟨-7/10, 7/10⟩ := by
  have hpi : pairIndices (0 + 1 + 1) = [(0, 1)] := by decide
  have t40 : truncZ ((40 : ℝ)) = 40 := truncZ_eq _ _ (by norm_num) (by norm_num) (by norm_num)
  have t47 : truncZ ((47 : ℝ)) = 47 := truncZ_eq _ _ (by norm_num) (by norm_num) (by norm_num)
  have t50 : truncZ ((50 : ℝ)) = 50 := truncZ_eq _ _ (by norm_num) (by norm_num) (by norm_num)
  have t38 : truncZ ((77 / 2 : ℝ)) = 38 := truncZ_eq _ _ (by norm_num) (by norm_num) (by norm_num)
  have t48 : truncZ ((97 / 2 : ℝ)) = 48 := truncZ_eq _ _ (by norm_num) (by norm_num) (by norm_num)
  constructor
  · norm_num [update_scene, moveAndClamp, bounceWalls, pairLoop, resolvePair,
      mathutil.midpoint, elastic_bounce, collide_circle, bodySpeed, hpi,
      CircleSprite.position, CircleSprite.setPosition, CircleSprite.setVelocity,
      CircleSprite.velocity, CircleSprite.mass,
      Vec2.normalize, Vec2.reflect, Vec2.dot, Vec2.length_squared,
      t40, t47, t50, t38, t48, len7, len9,
      lastLoopVar_one, lastLoopVar_two, lastLoopVar_three,
      length_eq_zero_iff, length_ne_zero_iff, mul_inv_cancel_left₀,
      max_def, min_def, List.getD_cons_zero, List.getD_cons_succ,
      List.getElem?_cons_zero, List.getElem?_cons_succ, Option.getD_some]
  · have h : Vec2.length ⟨-7/10, 7/10⟩ = Real.sqrt (49/50) := by
      unfold Vec2.length Vec2.length_squared
      norm_num
    rw [h]
    unfold CircleSprite.max_speed
    rw [show (0.7 : ℝ) = 7/10 by norm_num]
    exact (Real.lt_sqrt (by norm_num)).mpr (by norm_num)

/-- Claim C9 witness: a concrete collision-free tick preserving the speed. -/
theorem C9_witness :
    List.map CircleSprite.speed [(⟨(50, 50), ⟨1, 0⟩, 1/2, 5⟩ : CircleSprite)] =
      [(⟨(50, 50), ⟨1, 0⟩, 1/2, 5⟩ : CircleSprite).speed] ∧
    ([] : List (ℕ × ℕ)) = [] := by
  have hok : update_scene 100 100 1 [(⟨(50, 50), ⟨1, 0⟩, 1/2, 5⟩ : CircleSprite)] =
      .ok ([⟨(50, 50), ⟨1, 0⟩, 1/2, 5⟩], []) := by
    have hpi : pairIndices (0 + 1) = [] := by decide
    have t50 : truncZ ((50 : ℝ)) = 50 := truncZ_eq _ _ (by norm_num) (by norm_num) (by norm_num)
    have t505 : truncZ ((101 / 2 : ℝ)) = 50 :=
      truncZ_eq _ _ (by norm_num) (by norm_num) (by norm_num)
    norm_num [update_scene, moveAndClamp, bounceWalls, pairLoop, hpi,
      CircleSprite.position, CircleSprite.setPosition,
      CircleSprite.velocity, CircleSprite.mass,
      Vec2.reflect, Vec2.dot, t50, t505,
      lastLoopVar_one, max_def, min_def]
  exact C9_amended 100 100 1 ⟨(50, 50), ⟨1, 0⟩, 1/2, 5⟩ ([⟨(50, 50), ⟨1, 0⟩, 1/2, 5⟩], []) hok

/-- Claim C10 counterexample: setting the position to (1/2, 0) reads back
(0, 0): the setter/getter pair quantizes to integer pixel coordinates rather
than round-tripping sub-pixel positions. -/
theorem C10_counterexample :
    ((⟨(0, 0), ⟨1, 0⟩, 1, 5⟩ : CircleSprite).setPosition ⟨1/2, 0⟩).position = ⟨0, 0⟩ ∧
    (⟨0, 0⟩ : Vec2) ≠ ⟨1/2, 0⟩ := by
  have th : truncZ ((1 / 2 : ℝ)) = 0 := truncZ_eq _ _ (by norm_num) (by norm_num) (by norm_num)
  have t0 : truncZ ((0 : ℝ)) = 0 := truncZ_eq _ _ (by norm_num) (by norm_num) (by norm_num)
  constructor
  · norm_num [CircleSprite.setPosition, CircleSprite.position, th, t0]
  · norm_num

/-- Claim C10 witness: an integral point round-trips exactly. -/
theorem C10_witness :
    ((⟨(0, 0), ⟨1, 0⟩, 1, 5⟩ : CircleSprite).setPosition ⟨3, 4⟩).position = ⟨3, 4⟩ := by
  apply C10_amended
  unfold truncFix
  have t3 : truncZ ((3 : ℝ)) = 3 := truncZ_eq _ _ (by norm_num) (by norm_num) (by norm_num)
  have t4 : truncZ ((4 : ℝ)) = 4 := truncZ_eq _ _ (by norm_num) (by norm_num) (by norm_num)
  constructor
  · rw [t3]
    norm_num
  · rw [t4]
    norm_num


/-- Claim C2 witness: a concrete pair with integral re-seat targets ends
exactly 10 = 5 + 5 apart. -/
theorem C2_witness :
    Vec2.length ((⟨(40, 50), ⟨0, 1⟩, 1/2, 5⟩ : CircleSprite).position -
        (⟨(50, 50), ⟨0, 1⟩, 1/2, 5⟩ : CircleSprite).position) =
      (⟨(40, 50), ⟨0, 1⟩, 1/2, 5⟩ : CircleSprite).radius +
        (⟨(50, 50), ⟨0, -1⟩, 1/2, 5⟩ : CircleSprite).radius := by
  have t40 : truncZ ((40 : ℝ)) = 40 := truncZ_eq _ _ (by norm_num) (by norm_num) (by norm_num)
  have t50 : truncZ ((50 : ℝ)) = 50 := truncZ_eq _ _ (by norm_num) (by norm_num) (by norm_num)
  apply C2_amended ⟨(40, 50), ⟨0, 1⟩, 1/2, 5⟩ ⟨(50, 50), ⟨0, -1⟩, 1/2, 5⟩
  · norm_num [CircleSprite.position, Vec2.length_squared]
  · norm_num
  · norm_num
  · norm_num [truncFix, mathutil.midpoint, CircleSprite.position, len10,
      t40, t50]
  · norm_num [truncFix, mathutil.midpoint, CircleSprite.position, len10,
      t40, t50]
  · norm_num [resolvePair, mathutil.midpoint, elastic_bounce,
      CircleSprite.position, CircleSprite.setPosition, CircleSprite.setVelocity,
      CircleSprite.velocity, CircleSprite.mass,
      Vec2.normalize, Vec2.dot, Vec2.length_squared,
      t40, t50, len10, len10p, lenhalf,
      length_eq_zero_iff, length_ne_zero_iff, mul_inv_cancel_left₀]

/-- Claim C4 witness: a concrete resolution whose outcome equals the formula
at the pre-resolution positions. -/
theorem C4_witness :
    (⟨(40, 50), ⟨0, 1⟩, 1/5, 5⟩ : CircleSprite).velocity =
      specElasticFormula
        (CircleSprite.velocity ⟨(40, 50), ⟨3/10, 1/5⟩, 1, 5⟩)
        (CircleSprite.velocity ⟨(50, 50), ⟨0, -2/5⟩, 1, 5⟩)
        (CircleSprite.mass ⟨(40, 50), ⟨3/10, 1/5⟩, 1, 5⟩)
        (CircleSprite.mass ⟨(50, 50), ⟨0, -2/5⟩, 1, 5⟩)
        (CircleSprite.position ⟨(40, 50), ⟨3/10, 1/5⟩, 1, 5⟩)
        (CircleSprite.position ⟨(50, 50), ⟨0, -2/5⟩, 1, 5⟩) := by
  have t40 : truncZ ((40 : ℝ)) = 40 := truncZ_eq _ _ (by norm_num) (by norm_num) (by norm_num)
  have t50 : truncZ ((50 : ℝ)) = 50 := truncZ_eq _ _ (by norm_num) (by norm_num) (by norm_num)
  apply C4_amended ⟨(40, 50), ⟨3/10, 1/5⟩, 1, 5⟩ ⟨(50, 50), ⟨0, -2/5⟩, 1, 5⟩ _
    ⟨(50, 50), ⟨0, 1⟩, 2/5, 5⟩
  · norm_num [CircleSprite.position, Vec2.length_squared]
  · norm_num
  · norm_num
  · norm_num [truncFix, mathutil.midpoint, CircleSprite.position, len10,
      t40, t50]
  · norm_num [truncFix, mathutil.midpoint, CircleSprite.position, len10,
      t40, t50]
  · norm_num [resolvePair, mathutil.midpoint, elastic_bounce,
      CircleSprite.position, CircleSprite.setPosition, CircleSprite.setVelocity,
      CircleSprite.velocity, CircleSprite.mass,
      Vec2.normalize, Vec2.dot, Vec2.length_squared,
      t40, t50, len10, len10p, lenfifth, len2fifth,
      length_eq_zero_iff, length_ne_zero_iff, mul_inv_cancel_left₀]

/-- Claim C8 amended: the rejection loop of make_circles has no retry budget
and raises no placement error; when every candidate in the draw stream
collides with the first placed circle, the loop never exits, whatever
iteration bound is unfolded. -/
theorem C8_amended (width height : ℤ) (σ : ℕ → ℤ × ℤ) (ds : ℕ → Vec2 × ℝ)
    (hassert : 0 < (σ 0).1 ∧ (σ 0).1 < width ∧ 0 < (σ 0).2 ∧ (σ 0).2 < height)
    (hblock : ∀ k, CircleSprite.contains
      { rectCenter := σ 0, direction := (ds 0).1, speed := (ds 0).2, radius := 32 }
      ⟨((σ k).1 : ℝ), ((σ k).2 : ℝ)⟩ 3) :
    ∀ fuel, make_circles width height σ ds fuel 2 0 [] = .error .stillRunning :=
  make_circles_stuck width height σ ds hassert hblock

/-- Claim C8 witness: the constant stream at (199, 199) on a 400 x 400
screen blocks placement of a second circle. -/
theorem C8_witness :
    make_circles 400 400 constDraw constDS 7 2 0 [] = .error .stillRunning := by
  apply C8_amended 400 400 constDraw constDS
  · norm_num [constDraw]
  · intro k
    unfold CircleSprite.contains CircleSprite.position constDraw constDS
    norm_num [Vec2.sub_def, Vec2.length, Vec2.length_squared]

/-- Claim C8 counterexample: placement of 2 circles on a 400 x 400 screen
from the constant draw stream never finishes - the loop is unbounded and no
PlacementInfeasible error exists. -/
theorem C8_counterexample : placementNeverFinishes := by
  intro fuel
  apply make_circles_stuck 400 400 constDraw constDS
  · norm_num [constDraw]
  · intro k
    unfold CircleSprite.contains CircleSprite.position constDraw constDS
    norm_num [Vec2.sub_def, Vec2.length, Vec2.length_squared]


theorem len86 : Vec2.length ⟨-8, -6⟩ = 10 := length_eval _ _ (by norm_num) (by norm_num)

theorem lenC4 : Vec2.length ⟨9, 7⟩ = Real.sqrt 130 := by
  unfold Vec2.length Vec2.length_squared
  norm_num

theorem sqrt130_lb : 11 < Real.sqrt 130 := by
  rw [show (11 : ℝ) = Real.sqrt 121 from (sqrtEval 121 11 (by norm_num) (by norm_num)).symm]
  exact Real.sqrt_lt_sqrt (by norm_num) (by norm_num)

theorem sqrt130_ub : Real.sqrt 130 < 12 := by
  rw [show (12 : ℝ) = Real.sqrt 144 from (sqrtEval 144 12 (by norm_num) (by norm_num)).symm]
  exact Real.sqrt_lt_sqrt (by norm_num) (by norm_num)

theorem sqrt130_inv : (Real.sqrt 130)⁻¹ = Real.sqrt 130 / 130 := by
  rw [eq_div_iff (by norm_num : (130 : ℝ) ≠ 0)]
  have h2 : Real.sqrt 130 * Real.sqrt 130 = 130 :=
    Real.mul_self_sqrt (by norm_num)
  nth_rewrite 2 [← h2]
  rw [inv_mul_cancel_left₀ (ne_of_gt (Real.sqrt_pos.mpr (by norm_num)))]

theorem truncC4x : truncZ (34 + 6 * ((Vec2.length ⟨9, 7⟩)⁻¹ * 9)) = 38 := by
  rw [lenC4, sqrt130_inv]
  have hlb := sqrt130_lb
  have hub := sqrt130_ub
  apply truncZ_eq
  · linarith
  · push_cast
    linarith
  · push_cast
    linarith

theorem truncC4y : truncZ (33 + 6 * ((Vec2.length ⟨9, 7⟩)⁻¹ * 7)) = 36 := by
  rw [lenC4, sqrt130_inv]
  have hlb := sqrt130_lb
  have hub := sqrt130_ub
  apply truncZ_eq
  · linarith
  · push_cast
    linarith
  · push_cast
    linarith

set_option maxHeartbeats 2000000 in
/-- Claim C4 counterexample: the direction term of the impulse is taken from
the post-re-seat truncated positions (-9, -7), not the pre-resolution
separation (-8, -6), and the resulting first-body velocity differs from the
formula at the pre-resolution positions. -/
theorem C4_counterexample :
    bodyVelocity (update_scene 100 100 0
        [⟨(30, 30), ⟨1/2, 0⟩, 1, 6⟩, ⟨(38, 36), ⟨-1/2, 0⟩, 1, 6⟩]) 0 =
      some ⟨-8/65, -63/130⟩ ∧
    specElasticFormula
        (CircleSprite.velocity ⟨(30, 30), ⟨1/2, 0⟩, 1, 6⟩)
        (CircleSprite.velocity ⟨(38, 36), ⟨-1/2, 0⟩, 1, 6⟩)
        (CircleSprite.mass ⟨(30, 30), ⟨1/2, 0⟩, 1, 6⟩)
        (CircleSprite.mass ⟨(38, 36), ⟨-1/2, 0⟩, 1, 6⟩)
        (CircleSprite.position ⟨(30, 30), ⟨1/2, 0⟩, 1, 6⟩)
        (CircleSprite.position ⟨(38, 36), ⟨-1/2, 0⟩, 1, 6⟩) = ⟨-7/50, -12/25⟩ ∧
    (⟨-8/65, -63/130⟩ : Vec2) ≠ ⟨-7/50, -12/25⟩ := by
  have hpi : pairIndices (0 + 1 + 1) = [(0, 1)] := by decide
  have t30 : truncZ ((30 : ℝ)) = 30 := truncZ_eq _ _ (by norm_num) (by norm_num) (by norm_num)
  have t36 : truncZ ((36 : ℝ)) = 36 := truncZ_eq _ _ (by norm_num) (by norm_num) (by norm_num)
  have t38 : truncZ ((38 : ℝ)) = 38 := truncZ_eq _ _ (by norm_num) (by norm_num) (by norm_num)
  have t292 : truncZ ((146 / 5 : ℝ)) = 29 := truncZ_eq _ _ (by norm_num) (by norm_num) (by norm_num)
  have t294 : truncZ ((147 / 5 : ℝ)) = 29 := truncZ_eq _ _ (by norm_num) (by norm_num) (by norm_num)
  refine ⟨?_, ?_, ?_⟩ <;>
    norm_num [update_scene, moveAndClamp, bounceWalls, pairLoop, resolvePair,
      mathutil.midpoint, elastic_bounce, collide_circle, bodyVelocity, specElasticFormula,
      hpi, CircleSprite.position, CircleSprite.setPosition, CircleSprite.setVelocity,
      CircleSprite.velocity, CircleSprite.mass,
      Vec2.normalize, Vec2.reflect, Vec2.dot, Vec2.length_squared,
      t30, t36, t38, t292, t294, len86, truncC4x, truncC4y,
      lastLoopVar_one, lastLoopVar_two, lastLoopVar_three,
      length_eq_zero_iff, length_ne_zero_iff, mul_inv_cancel_left₀,
      max_def, min_def, List.getD_cons_zero, List.getD_cons_succ,
      List.getElem?_cons_zero, List.getElem?_cons_succ, Option.getD_some]


/-- Claim C7 witness: a concrete coincident-center world whose tick raises. -/
theorem C7_witness :
    update_scene 100 100 0
        [⟨(50, 50), ⟨1, 0⟩, 1/2, 5⟩, ⟨(50, 50), ⟨0, 1⟩, 1/2, 5⟩] =
      .error .valueError := by
  apply C7_amended 100 100 ⟨(50, 50), ⟨1, 0⟩, 1/2, 5⟩ ⟨(50, 50), ⟨0, 1⟩, 1/2, 5⟩ rfl
  all_goals norm_num
